import Mathlib

/-!
Verification of the commuting well-being simulation.

This file gives a shallow embedding, over `ℚ`, of the parts of
`wellbeing_simulation.py` and `economic_indicators.py` that the claims
C1–C10 are about: the per-day commute decision, the daily consumption and
asset-loss bookkeeping, the housing filter and its widening loop, the
listing-selection probabilities, the income draw, and the result-table
accumulation.  Python's `int(...)` truncation is modelled by `truncInt`
(truncation toward zero) and `random.randint(lo, hi)` by an oracle-driven
`randint` that always lands in `[lo, hi]`.
-/

namespace Commuting

/-- Python `int(q)` on a rational: truncation toward zero. -/
def truncInt (q : ℚ) : ℤ := Int.tdiv q.num (q.den : ℤ)

/-! ## Rental listings and the per-day commute decision

A row of the per-city driving+transit table, with the columns read by
`simulate` (`wellbeing_simulation.py`, lines 162–193). -/

structure Listing where
  commuting_distance : ℚ
  commuting_time : ℚ
  transit_price : ℚ
  driving_distance : ℚ
  driving_time : ℚ
  driving_fare : ℚ
  individual_rent_price : ℚ
  deriving DecidableEq, Repr

/-- The four per-day increments produced by the day loop of `simulate`
(`commuting_consumption`, `income_lost`, `time_add`, `distance_add`). -/
structure DayOutcome where
  commuting_consumption : ℚ
  income_lost : ℚ
  time_add : ℚ
  distance_add : ℚ
  deriving DecidableEq, Repr

/-- The body of the day loop of `simulate`
(`wellbeing_simulation.py`, lines 209–262): weekend-pattern days
(`r % 7 ∈ {0, 1}`) and workdays whose attenuation truncates to 1
contribute nothing; otherwise the resident compares the extra fare of
driving against the income lost by staying on the (rain-slowed) transit. -/
def dailyCommuteDecision (r : ℕ) (velocity_attenuation_percentage : ℚ)
    (l : Listing) (income_per_hour : ℚ) : DayOutcome :=
  if r % 7 = 0 ∨ r % 7 = 1 then
    ⟨0, 0, 0, 0⟩
  else if truncInt velocity_attenuation_percentage = 1 then
    ⟨0, 0, 0, 0⟩
  else
    let fare_add := (l.driving_fare - l.transit_price) / velocity_attenuation_percentage
    let income_loss := (1 / velocity_attenuation_percentage) * max income_per_hour 10
      * (l.commuting_time - l.driving_time) / 60
    if fare_add ≤ income_loss then
      { commuting_consumption := fare_add
        income_lost :=
          max (l.driving_time / velocity_attenuation_percentage - l.commuting_time) 0
            / 60 * max income_per_hour 10
        time_add := l.driving_time * (1 / velocity_attenuation_percentage) - l.commuting_time
        distance_add := l.driving_distance - l.commuting_distance }
    else
      { commuting_consumption := 0
        income_lost := l.commuting_time / (60 * velocity_attenuation_percentage)
          * max income_per_hour 10
        time_add := l.commuting_time * (1 / velocity_attenuation_percentage - 1)
        distance_add := 0 }

/-- The rain-day decision rule exactly as the spec words it (§4.3, item 3),
written independently of `dailyCommuteDecision` for the refinement claim C1. -/
def rainDayDecisionSpec (attenuation : ℚ) (l : Listing) (income_per_hour : ℚ) :
    DayOutcome :=
  let fare_add := (l.driving_fare - l.transit_price) / attenuation
  let income_loss_if_transit := (1 / attenuation) * max income_per_hour 10
    * (l.commuting_time - l.driving_time) / 60
  if fare_add ≤ income_loss_if_transit then
    { commuting_consumption := fare_add
      income_lost := max (l.driving_time / attenuation - l.commuting_time) 0 / 60
        * max income_per_hour 10
      time_add := l.driving_time / attenuation - l.commuting_time
      distance_add := l.driving_distance - l.commuting_distance }
  else
    { commuting_consumption := 0
      income_lost := l.commuting_time / (60 * attenuation) * max income_per_hour 10
      time_add := l.commuting_time * (1 / attenuation - 1)
      distance_add := 0 }

/-! ## Daily consumption and asset loss (`economic_indicators.get_consumption`) -/

/-- `get_consumption` (`economic_indicators.py`, lines 133–164): returns the
pair (disposable consumption today, asset loss today). -/
def get_consumption (initial_disposable_consumption rent_perday income_perday
    extra_consumption_perday average_saving_ratio commuting_consumption
    income_loss : ℚ) : ℚ × ℚ :=
  (max (initial_disposable_consumption - rent_perday - extra_consumption_perday)
      (income_perday * average_saving_ratio)
    - commuting_consumption - income_loss,
   commuting_consumption + income_loss)

/-- The daily-consumption formula exactly as the spec words it (§4.4, first
bullet), written independently of `get_consumption` for claim C6. -/
def dailyConsumptionSpec (baseline_disposable rent_per_day income_per_day
    extra_consumption_per_day saving_propensity cost_added income_lost : ℚ) : ℚ :=
  max (baseline_disposable - rent_per_day - extra_consumption_per_day)
      (income_per_day * saving_propensity)
    - cost_added - income_lost

/-! ## The per-resident day loop (`simulate`, lines 209–298)

The loop walks the attenuation series with an explicit day index `r`; we
model the three per-day streams the claims need: the actual consumption,
the no-rain counterfactual consumption, and the asset loss. -/

/-- One day's asset loss: the second component of `get_consumption` applied to
the day's commute outcome (`simulate`, lines 264–272 and 295). -/
def dayAssetLoss (r : ℕ) (att : ℚ) (l : Listing) (income_per_hour
    initial_disposable_consumption rent_per_day income_per_day
    extra_consumption_per_day average_saving_ratio : ℚ) : ℚ :=
  let o := dailyCommuteDecision r att l income_per_hour
  (get_consumption initial_disposable_consumption rent_per_day income_per_day
      extra_consumption_per_day average_saving_ratio
      o.commuting_consumption o.income_lost).2

/-- One day's actual consumption: the first component of `get_consumption`
applied to the day's commute outcome (`simulate`, lines 264–272). -/
def dayConsumption (r : ℕ) (att : ℚ) (l : Listing) (income_per_hour
    initial_disposable_consumption rent_per_day income_per_day
    extra_consumption_per_day average_saving_ratio : ℚ) : ℚ :=
  let o := dailyCommuteDecision r att l income_per_hour
  (get_consumption initial_disposable_consumption rent_per_day income_per_day
      extra_consumption_per_day average_saving_ratio
      o.commuting_consumption o.income_lost).1

/-- One day's no-rain counterfactual consumption: the consumption component of
`get_consumption` with zero commuting consumption and zero income loss
(the quantity `simulate` lines 273–281 intend to store). -/
def dayConsumptionNoRainfall (initial_disposable_consumption rent_per_day
    income_per_day extra_consumption_per_day average_saving_ratio : ℚ) : ℚ :=
  (get_consumption initial_disposable_consumption rent_per_day income_per_day
      extra_consumption_per_day average_saving_ratio 0 0).1

/-- The stream `asset_lost_per_day` over the attenuation series, starting at
day index `r0` (the simulation starts it at 0). -/
def assetLostPerDay (l : Listing) (income_per_hour initial_disposable_consumption
    rent_per_day income_per_day extra_consumption_per_day
    average_saving_ratio : ℚ) : ℕ → List ℚ → List ℚ
  | _, [] => []
  | r0, att :: rest =>
      dayAssetLoss r0 att l income_per_hour initial_disposable_consumption
          rent_per_day income_per_day extra_consumption_per_day average_saving_ratio
        :: assetLostPerDay l income_per_hour initial_disposable_consumption
            rent_per_day income_per_day extra_consumption_per_day
            average_saving_ratio (r0 + 1) rest

/-- The stream `consumption` over the attenuation series, starting at day
index `r0`. -/
def consumptionPerDay (l : Listing) (income_per_hour initial_disposable_consumption
    rent_per_day income_per_day extra_consumption_per_day
    average_saving_ratio : ℚ) : ℕ → List ℚ → List ℚ
  | _, [] => []
  | r0, att :: rest =>
      dayConsumption r0 att l income_per_hour initial_disposable_consumption
          rent_per_day income_per_day extra_consumption_per_day average_saving_ratio
        :: consumptionPerDay l income_per_hour initial_disposable_consumption
            rent_per_day income_per_day extra_consumption_per_day
            average_saving_ratio (r0 + 1) rest

/-- The intended stream `consumption_no_rainfall`: one counterfactual
consumption value per simulated day. -/
def consumptionNoRainfallPerDay (initial_disposable_consumption rent_per_day
    income_per_day extra_consumption_per_day average_saving_ratio : ℚ)
    (atts : List ℚ) : List ℚ :=
  atts.map fun _ =>
    dayConsumptionNoRainfall initial_disposable_consumption rent_per_day
      income_per_day extra_consumption_per_day average_saving_ratio

/-- `asset_loss` of the result row: the sum of `asset_lost_per_day`
(`simulate`, line 308). -/
def totalAssetLoss (atts : List ℚ) (l : Listing) (income_per_hour
    initial_disposable_consumption rent_per_day income_per_day
    extra_consumption_per_day average_saving_ratio : ℚ) : ℚ :=
  (assetLostPerDay l income_per_hour initial_disposable_consumption rent_per_day
    income_per_day extra_consumption_per_day average_saving_ratio 0 atts).sum

/-! ## Housing filter and the widening loop -/

/-- `get_housing_group` (`economic_indicators.py`, lines 177–190): keep the
listings whose monthly rent lies strictly between the bounds of the annual
rent range divided by 12. -/
def get_housing_group (df : List Listing) (rent_range_peryear : ℚ × ℚ) :
    List Listing :=
  df.filter fun l =>
    decide (l.individual_rent_price < rent_range_peryear.2 / 12)
      && decide (l.individual_rent_price > rent_range_peryear.1 / 12)

/-- The widening loop of `simulate` (lines 147–160), fuel-indexed: while the
filtered set is empty, lower the lower ratio bound and raise the upper ratio
bound by 0.05 and refilter.  Returns the final ratio window together with the
non-empty candidate set, or `none` when the fuel runs out. -/
def widenSearch (df : List Listing) (individual_income : ℚ) :
    ℕ → ℚ × ℚ → Option ((ℚ × ℚ) × List Listing)
  | 0, _ => none
  | fuel + 1, (lo, hi) =>
      let rent_option := get_housing_group df (individual_income * lo, individual_income * hi)
      if rent_option = [] then
        widenSearch df individual_income fuel (lo - 1/20, hi + 1/20)
      else
        some ((lo, hi), rent_option)

/-! ## Listing-selection probabilities (`probability_normalize`) -/

/-- The normalized-inverse weighting used for each of the three factor lists
(`wellbeing_simulation.py`, lines 33–40). -/
def inverseChance (xs : List ℚ) : List ℚ :=
  let total := (xs.map fun x => 1 / x).sum
  xs.map fun x => (1 / x) / total

/-- `probability_normalize` (`wellbeing_simulation.py`, lines 16–48): the
weighted combination of the three normalized-inverse lists, indexed like the
source's `range(len(distance_chance))` comprehension. -/
def probability_normalize (distance_list time_list rent_list : List ℚ)
    (w1 w2 w3 : ℚ) : List ℚ :=
  let distance_chance := inverseChance distance_list
  let time_chance := inverseChance time_list
  let rent_chance := inverseChance rent_list
  (List.range distance_chance.length).map fun i =>
    distance_chance.getD i 0 * w1 + time_chance.getD i 0 * w2
      + rent_chance.getD i 0 * w3

/-! ## The income draw (`get_people_income_list`) -/

/-- `random.randint lo hi` driven by an oracle `rng`: whatever the oracle
returns at step `i` is folded into `[lo, hi]` (inclusive, as in Python). -/
def randint (rng : ℕ → ℕ) (i : ℕ) (lo hi : ℤ) : ℤ :=
  lo + (rng i : ℤ) % (hi - lo + 1)

/-- The running average `people_average_income`: 0 before any draw (the
loop's initial value), else the mean of the incomes drawn so far. -/
def peopleAverageIncome (acc : List ℤ) : ℚ :=
  if acc = [] then 0 else (acc.sum : ℚ) / (acc.length : ℚ)

/-- One step of `get_people_income_list` (`economic_indicators.py`, lines
219–228): if the running average exceeds the target, draw from
`[int(range_low), int(average_income)]`, else from
`[int(average_income), int(range_high)]`. -/
def incomeDraw (rng : ℕ → ℕ) (range_low range_high average_income : ℚ)
    (acc : List ℤ) : ℤ :=
  if peopleAverageIncome acc > average_income then
    randint rng acc.length (truncInt range_low) (truncInt average_income)
  else
    randint rng acc.length (truncInt average_income) (truncInt range_high)

/-- The draw loop, carrying the list built so far. -/
def incomeListAux (rng : ℕ → ℕ) (range_low range_high average_income : ℚ) :
    ℕ → List ℤ → List ℤ
  | 0, acc => acc
  | n + 1, acc =>
      incomeListAux rng range_low range_high average_income n
        (acc ++ [incomeDraw rng range_low range_high average_income acc])

/-- `get_people_income_list` (`economic_indicators.py`, lines 207–229). -/
def get_people_income_list (rng : ℕ → ℕ) (range_low range_high average_income : ℚ)
    (people_number : ℕ) : List ℤ :=
  incomeListAux rng range_low range_high average_income people_number []

/-! ## Result-table accumulation (`simulate`, lines 300–316)

Each resident produces one row (`result_df_1`).  The source then executes
`result_dave_df = pd.concat([result_save_df, result_df_1], axis=0)` while
`result_save_df` is never reassigned, and finally writes `result_dave_df`. -/

/-- One result row: the chosen listing's attributes plus the identifiers and
totals assigned at lines 301–311. -/
structure ResultRow where
  listing : Listing
  people_income : ℤ
  workplace : ℕ
  initial_savings : ℚ
  income_group : ℕ
  people : ℕ
  well_being_loss : ℚ
  asset_loss : ℚ
  time_add : ℚ
  distance_add : ℚ
  deriving DecidableEq, Repr

/-- The per-resident accumulation as written: the fold state is the pair
(`result_save_df`, `result_dave_df`); each resident's row is concatenated onto
`result_save_df` (which never grows) and the result stored in
`result_dave_df`; the emitted table is the final `result_dave_df`. -/
def emittedTable (rows : List ResultRow) : List ResultRow :=
  (rows.foldl (fun st row => (st.1, st.1 ++ [row]))
    (([] : List ResultRow), ([] : List ResultRow))).2

/-! ## Concrete instances and derived streams used by the theorems -/

/-- A sample listing used to instantiate hypotheses of the proved theorems:
transit 5 km / 60 min / fare 3, driving 6 km / 30 min / fare 13, rent 100. -/
def sampleListing : Listing :=
  { commuting_distance := 5
    commuting_time := 60
    transit_price := 3
    driving_distance := 6
    driving_time := 30
    driving_fare := 13
    individual_rent_price := 100 }

/-- The per-day `cost_added + income_lost` stream phrased directly on the
commute decision, starting at day index `r0`. -/
def decisionLossPerDay (l : Listing) (income_per_hour : ℚ) :
    ℕ → List ℚ → List ℚ
  | _, [] => []
  | r0, a :: rest =>
      ((dailyCommuteDecision r0 a l income_per_hour).commuting_consumption
          + (dailyCommuteDecision r0 a l income_per_hour).income_lost)
        :: decisionLossPerDay l income_per_hour (r0 + 1) rest

/-! ## Generic helper lemmas -/

lemma truncInt_intCast (n : ℤ) : truncInt (n : ℚ) = n := by
  simp only [truncInt, Rat.num_intCast, Rat.den_intCast, Nat.cast_one]
  exact Int.tdiv_one n

lemma truncInt_half : truncInt (1/2) = 0 := by
  have h : ((1 : ℚ)/2).num = 1 ∧ ((1 : ℚ)/2).den = 2 := by norm_num
  rw [truncInt, h.1, h.2]
  decide

/-! ## C1: the rain-workday decision rule -/

/-- C1: for every workday (day-index mod 7 not in {0,1}) with rain
(attenuation truncating below 1), the day loop's commute decision agrees with
the spec's decision rule `rainDayDecisionSpec`: switch to driving when
`fare_add ≤ income_loss_if_transit` (paying `fare_add`, losing
`max(driving_time/attenuation − transit_time, 0)/60 × max(income_per_hour, 10)`,
adding `driving_time/attenuation − transit_time` time and the distance gap),
else keep the slowed transit (zero cost, `transit_time/(60×attenuation) ×
max(income_per_hour, 10)` income lost, `transit_time × (1/attenuation − 1)`
extra time, zero distance). -/
theorem c1_rain_workday_follows_spec (r : ℕ) (att : ℚ) (l : Listing) (iph : ℚ)
    (hw : ¬(r % 7 = 0 ∨ r % 7 = 1)) (hr : truncInt att < 1) :
    dailyCommuteDecision r att l iph = rainDayDecisionSpec att l iph := by
  have hne : ¬ truncInt att = 1 := by omega
  simp only [dailyCommuteDecision, rainDayDecisionSpec]
  rw [if_neg hw, if_neg hne]
  by_cases hc :
      (l.driving_fare - l.transit_price) / att ≤
        1 / att * max iph 10 * (l.commuting_time - l.driving_time) / 60
  · rw [if_pos hc, if_pos hc, mul_one_div]
  · rw [if_neg hc, if_neg hc]

/-- Witness for C1 at day 2, attenuation 1/2, the sample listing and hourly
income 20. -/
theorem c1_rain_workday_follows_spec_witness :
    (¬((2 : ℕ) % 7 = 0 ∨ (2 : ℕ) % 7 = 1)) ∧ truncInt (1/2) < 1 ∧
      dailyCommuteDecision 2 (1/2) sampleListing 20
        = rainDayDecisionSpec (1/2) sampleListing 20 :=
  ⟨by decide, by rw [truncInt_half]; decide, c1_rain_workday_follows_spec 2 (1/2)
    sampleListing 20 (by decide) (by rw [truncInt_half]; decide)⟩

/-! ## C4: weekend-pattern days and attenuation-1 workdays contribute nothing -/

/-- C4: every day whose index mod 7 is 0 or 1, and every workday whose
attenuation truncates to 1, contributes zero `cost_added`, `income_lost`,
`time_add` and `distance_add`. -/
theorem c4_zero_contribution_days (r : ℕ) (att : ℚ) (l : Listing) (iph : ℚ)
    (h : r % 7 = 0 ∨ r % 7 = 1 ∨ truncInt att = 1) :
    dailyCommuteDecision r att l iph = ⟨0, 0, 0, 0⟩ := by
  simp only [dailyCommuteDecision]
  rcases h with h | h | h
  · rw [if_pos (Or.inl h)]
  · rw [if_pos (Or.inr h)]
  · by_cases hw : r % 7 = 0 ∨ r % 7 = 1
    · rw [if_pos hw]
    · rw [if_neg hw, if_pos h]

/-- Witness for C4 at day 0 (weekend-pattern) with attenuation 1/2. -/
theorem c4_zero_contribution_days_witness :
    ((0 : ℕ) % 7 = 0 ∨ (0 : ℕ) % 7 = 1 ∨ truncInt (1/2) = 1) ∧
      dailyCommuteDecision 0 (1/2) sampleListing 20 = ⟨0, 0, 0, 0⟩ :=
  ⟨Or.inl rfl, c4_zero_contribution_days 0 (1/2) sampleListing 20 (Or.inl rfl)⟩

/-! ## C6: the daily-consumption formula -/

/-- C6: for every resident-day, the daily consumption computed by
`get_consumption` equals
`max(baseline − rent_per_day − extra_consumption_per_day, income_per_day ×
saving_ratio) − cost_added − income_lost`: the savings-propensity floor is
applied to the rent-and-extras term first, and the day's commuting cost and
income loss are subtracted from the floored value. -/
theorem c6_consumption_floor_before_losses
    (baseline rpd ipd ecpd sr cc il : ℚ) :
    (get_consumption baseline rpd ipd ecpd sr cc il).1
      = dailyConsumptionSpec baseline rpd ipd ecpd sr cc il :=
  rfl

/-! ## C9: the counterfactual consumption track -/

lemma consumption_gap (baseline rpd ipd ecpd sr cc il : ℚ) :
    (get_consumption baseline rpd ipd ecpd sr 0 0).1
      - (get_consumption baseline rpd ipd ecpd sr cc il).1 = cc + il := by
  simp only [get_consumption]
  ring

lemma day_consumption_gap (r : ℕ) (att : ℚ) (l : Listing)
    (iph baseline rpd ipd ecpd sr : ℚ) :
    dayConsumptionNoRainfall baseline rpd ipd ecpd sr
      - dayConsumption r att l iph baseline rpd ipd ecpd sr
      = dayAssetLoss r att l iph baseline rpd ipd ecpd sr := by
  simp only [dayConsumptionNoRainfall, dayConsumption, dayAssetLoss,
    get_consumption]
  ring

lemma take_sum_consumption_gap (l : Listing) (iph baseline rpd ipd ecpd sr : ℚ) :
    ∀ (atts : List ℚ) (r0 t : ℕ),
      (((consumptionNoRainfallPerDay baseline rpd ipd ecpd sr atts).take t).sum)
        - (((consumptionPerDay l iph baseline rpd ipd ecpd sr r0 atts).take t).sum)
      = (((assetLostPerDay l iph baseline rpd ipd ecpd sr r0 atts).take t).sum)
  | [], r0, t => by
      simp [consumptionNoRainfallPerDay, consumptionPerDay, assetLostPerDay]
  | a :: rest, r0, 0 => by simp
  | a :: rest, r0, t + 1 => by
      simp only [consumptionNoRainfallPerDay, List.map_cons, consumptionPerDay,
        assetLostPerDay, List.take_succ_cons, List.sum_cons]
      have ih := take_sum_consumption_gap l iph baseline rpd ipd ecpd sr rest
        (r0 + 1) t
      simp only [consumptionNoRainfallPerDay] at ih
      have hd := day_consumption_gap r0 a l iph baseline rpd ipd ecpd sr
      linarith

/-- C9: for every resident-day the counterfactual (no-rain) daily consumption
exceeds the actual one by exactly `cost_added + income_lost` of that day, and
consequently, for every day count `t`, the counterfactual asset track
`savings + Σ consumption_no_rainfall` exceeds the actual track
`savings + Σ consumption` by the cumulative asset loss up to `t`. -/
theorem c9_counterfactual_track_gap (atts : List ℚ) (l : Listing)
    (iph baseline rpd ipd ecpd sr savings : ℚ) :
    (∀ cc il : ℚ,
        (get_consumption baseline rpd ipd ecpd sr 0 0).1
          - (get_consumption baseline rpd ipd ecpd sr cc il).1 = cc + il)
    ∧ ∀ t : ℕ,
        (savings
            + ((consumptionNoRainfallPerDay baseline rpd ipd ecpd sr atts).take t).sum)
          - (savings
            + ((consumptionPerDay l iph baseline rpd ipd ecpd sr 0 atts).take t).sum)
        = ((assetLostPerDay l iph baseline rpd ipd ecpd sr 0 atts).take t).sum := by
  constructor
  · intro cc il
    exact consumption_gap baseline rpd ipd ecpd sr cc il
  · intro t
    have h := take_sum_consumption_gap l iph baseline rpd ipd ecpd sr atts 0 t
    linarith

/-! ## C2: the total asset loss -/

lemma assetLost_eq_decisionLoss (l : Listing)
    (iph baseline rpd ipd ecpd sr : ℚ) : ∀ (atts : List ℚ) (r0 : ℕ),
    assetLostPerDay l iph baseline rpd ipd ecpd sr r0 atts
      = decisionLossPerDay l iph r0 atts
  | [], _ => rfl
  | a :: rest, r0 => by
      simp only [assetLostPerDay, decisionLossPerDay, List.cons.injEq]
      exact ⟨rfl, assetLost_eq_decisionLoss l iph baseline rpd ipd ecpd sr rest
        (r0 + 1)⟩

lemma day_loss_nonneg (r : ℕ) (att : ℚ) (l : Listing) (iph : ℚ)
    (hatt : 0 < att) (hfare : l.transit_price ≤ l.driving_fare)
    (hct : 0 ≤ l.commuting_time) :
    0 ≤ (dailyCommuteDecision r att l iph).commuting_consumption
      + (dailyCommuteDecision r att l iph).income_lost := by
  have hmax : (0 : ℚ) ≤ max iph 10 := le_trans (by norm_num) (le_max_right iph 10)
  simp only [dailyCommuteDecision]
  by_cases hw : r % 7 = 0 ∨ r % 7 = 1
  · rw [if_pos hw]; norm_num
  · rw [if_neg hw]
    by_cases h1 : truncInt att = 1
    · rw [if_pos h1]; norm_num
    · rw [if_neg h1]
      by_cases hc : (l.driving_fare - l.transit_price) / att
          ≤ 1 / att * max iph 10 * (l.commuting_time - l.driving_time) / 60
      · rw [if_pos hc]
        have h2 : 0 ≤ (l.driving_fare - l.transit_price) / att :=
          div_nonneg (sub_nonneg.2 hfare) hatt.le
        have h3 : 0 ≤ max (l.driving_time / att - l.commuting_time) 0 / 60
            * max iph 10 :=
          mul_nonneg (div_nonneg (le_max_right _ _) (by norm_num)) hmax
        dsimp only
        linarith
      · rw [if_neg hc]
        have h4 : 0 ≤ l.commuting_time / (60 * att) * max iph 10 :=
          mul_nonneg (div_nonneg hct (by positivity)) hmax
        dsimp only
        linarith

lemma decisionLoss_sum_nonneg (l : Listing) (iph : ℚ)
    (hfare : l.transit_price ≤ l.driving_fare) (hct : 0 ≤ l.commuting_time) :
    ∀ (atts : List ℚ) (r0 : ℕ), (∀ a ∈ atts, 0 < a) →
      0 ≤ (decisionLossPerDay l iph r0 atts).sum
  | [], _, _ => by simp [decisionLossPerDay]
  | a :: rest, r0, h => by
      simp only [decisionLossPerDay, List.sum_cons]
      have h1 := day_loss_nonneg r0 a l iph (h a (List.mem_cons_self a rest))
        hfare hct
      have h2 := decisionLoss_sum_nonneg l iph hfare hct rest (r0 + 1)
        (fun x hx => h x (List.mem_cons_of_mem a hx))
      linarith

/-- C2: the total asset loss the day loop is intended to report — the source
itself never reaches it: line 273 of `wellbeing_simulation.py` stores the
un-unpacked `get_consumption` pair, so `savings + sum(consumption_no_rainfall)`
at line 286 raises `TypeError` on the first simulated day, before any entry of
`asset_lost_per_day` is appended (line 295) or summed into `asset_loss`
(line 308).  For every resident whose attenuation series is positive, whose
chosen listing's driving fare is at least its transit price, and whose transit
time is non-negative, that total equals the sum over all simulated days of the
day's `cost_added + income_lost` (each day's loss being the
`commuting_consumption + income_loss` pair component of `get_consumption`) and
is non-negative. -/
theorem c2_total_asset_loss (atts : List ℚ) (l : Listing)
    (iph baseline rpd ipd ecpd sr : ℚ)
    (hatt : ∀ a ∈ atts, 0 < a) (hfare : l.transit_price ≤ l.driving_fare)
    (hct : 0 ≤ l.commuting_time) :
    totalAssetLoss atts l iph baseline rpd ipd ecpd sr
        = (decisionLossPerDay l iph 0 atts).sum
      ∧ 0 ≤ totalAssetLoss atts l iph baseline rpd ipd ecpd sr := by
  have he := assetLost_eq_decisionLoss l iph baseline rpd ipd ecpd sr atts 0
  constructor
  · unfold totalAssetLoss
    rw [he]
  · unfold totalAssetLoss
    rw [he]
    exact decisionLoss_sum_nonneg l iph hfare hct atts 0 hatt

/-- Witness for C2's amended statement: three days (two weekend-pattern, one
rainy workday) on the sample listing. -/
theorem c2_total_asset_loss_witness :
    (∀ a ∈ [(1 : ℚ), 1, 1/2], 0 < a)
    ∧ sampleListing.transit_price ≤ sampleListing.driving_fare
    ∧ 0 ≤ sampleListing.commuting_time
    ∧ (totalAssetLoss [1, 1, 1/2] sampleListing 20 0 0 0 0 0
          = (decisionLossPerDay sampleListing 20 0 [1, 1, 1/2]).sum
        ∧ 0 ≤ totalAssetLoss [1, 1, 1/2] sampleListing 20 0 0 0 0 0) :=
  ⟨by intro a ha; fin_cases ha <;> norm_num,
   by norm_num [sampleListing],
   by norm_num [sampleListing],
   c2_total_asset_loss [1, 1, 1/2] sampleListing 20 0 0 0 0 0
     (by intro a ha; fin_cases ha <;> norm_num)
     (by norm_num [sampleListing]) (by norm_num [sampleListing])⟩

/-! ## C3: the emitted results table -/

lemma emitted_fold_fst : ∀ (rows : List ResultRow) (a b : List ResultRow),
    (rows.foldl (fun st row => (st.1, st.1 ++ [row])) (a, b)).1 = a
  | [], _, _ => rfl
  | r :: rest, a, _ => emitted_fold_fst rest a (a ++ [r])

/-- C3: the accumulation slip at `simulate` line 312 — `pd.concat` is assigned
to `result_dave_df` while `result_save_df` (the value being concatenated onto)
is never reassigned — makes the emitted table consist of exactly the last
resident's row, whatever the number of residents: the claimed one-row-per-
resident shape fails for every simulation of two or more residents. -/
theorem c3_table_keeps_only_last_row (rows : List ResultRow) (row : ResultRow) :
    emittedTable (rows ++ [row]) = [row] := by
  unfold emittedTable
  rw [List.foldl_append]
  simp only [List.foldl_cons, List.foldl_nil]
  rw [emitted_fold_fst]
  rfl

/-! ## C5 and C10: the income draw -/

lemma truncInt_50 : truncInt (50 : ℚ) = 50 := by
  have h : ((50 : ℚ)).num = 50 ∧ ((50 : ℚ)).den = 1 := by norm_num
  rw [truncInt, h.1, h.2]
  decide

lemma truncInt_100 : truncInt (100 : ℚ) = 100 := by
  have h : ((100 : ℚ)).num = 100 ∧ ((100 : ℚ)).den = 1 := by norm_num
  rw [truncInt, h.1, h.2]
  decide

lemma truncInt_200 : truncInt (200 : ℚ) = 200 := by
  have h : ((200 : ℚ)).num = 200 ∧ ((200 : ℚ)).den = 1 := by norm_num
  rw [truncInt, h.1, h.2]
  decide

lemma randint_bounds (rng : ℕ → ℕ) (i : ℕ) (lo hi : ℤ) (h : lo ≤ hi) :
    lo ≤ randint rng i lo hi ∧ randint rng i lo hi ≤ hi := by
  unfold randint
  have h1 := Int.emod_nonneg (rng i : ℤ) (by omega : hi - lo + 1 ≠ 0)
  have h2 := Int.emod_lt_of_pos (rng i : ℤ) (by omega : 0 < hi - lo + 1)
  omega

lemma peopleAverageIncome_nil : peopleAverageIncome ([] : List ℤ) = 0 := rfl

/-- C5 (amended): at every step of the income draw whose running average of
incomes drawn so far strictly EXCEEDS the tier's target `average_income`, the
next income is drawn from `[int(range_low), int(average_income)]`; at every
step whose running average is at or below `average_income`, the next income is
drawn from `[int(average_income), int(range_high)]` (the code's branch
directions are the reverse of the claim's). -/
theorem c5_income_draw_branches (rng : ℕ → ℕ) (range_low range_high avg : ℚ)
    (acc : List ℤ) (h1 : truncInt range_low ≤ truncInt avg)
    (h2 : truncInt avg ≤ truncInt range_high) :
    (avg < peopleAverageIncome acc →
      truncInt range_low ≤ incomeDraw rng range_low range_high avg acc
        ∧ incomeDraw rng range_low range_high avg acc ≤ truncInt avg)
    ∧ (peopleAverageIncome acc ≤ avg →
      truncInt avg ≤ incomeDraw rng range_low range_high avg acc
        ∧ incomeDraw rng range_low range_high avg acc ≤ truncInt range_high) := by
  constructor
  · intro hgt
    unfold incomeDraw
    rw [if_pos hgt]
    exact randint_bounds rng acc.length _ _ h1
  · intro hle
    unfold incomeDraw
    rw [if_neg (not_lt.2 hle)]
    exact randint_bounds rng acc.length _ _ h2

/-- Witness for C5's amended statement: range [50, 200], target 100, two
incomes 120 and 200 already drawn (running average 160 > 100). -/
theorem c5_income_draw_branches_witness :
    truncInt (50 : ℚ) ≤ truncInt (100 : ℚ)
    ∧ truncInt (100 : ℚ) ≤ truncInt (200 : ℚ)
    ∧ ((100 : ℚ) < peopleAverageIncome [120, 200] →
        truncInt (50 : ℚ) ≤ incomeDraw (fun _ => 7) 50 200 100 [120, 200]
          ∧ incomeDraw (fun _ => 7) 50 200 100 [120, 200] ≤ truncInt (100 : ℚ))
    ∧ (peopleAverageIncome [120, 200] ≤ (100 : ℚ) →
        truncInt (100 : ℚ) ≤ incomeDraw (fun _ => 7) 50 200 100 [120, 200]
          ∧ incomeDraw (fun _ => 7) 50 200 100 [120, 200] ≤ truncInt (200 : ℚ)) :=
  ⟨by rw [truncInt_50, truncInt_100]; decide,
   by rw [truncInt_100, truncInt_200]; decide,
   (c5_income_draw_branches (fun _ => 7) 50 200 100 [120, 200]
     (by rw [truncInt_50, truncInt_100]; decide)
     (by rw [truncInt_100, truncInt_200]; decide)).1,
   (c5_income_draw_branches (fun _ => 7) 50 200 100 [120, 200]
     (by rw [truncInt_50, truncInt_100]; decide)
     (by rw [truncInt_100, truncInt_200]; decide)).2⟩

/-- C5 counterexample: with income range [50, 200] and target average 100, the
first step's running average is 0, strictly below the target, yet the income
drawn (oracle value 50) is 150 — outside the interval
`[range_low, average_income] = [50, 100]` the claim prescribes for that step,
because the code draws from the UPPER interval whenever the running average
does not exceed the target. -/
theorem c5_counterexample :
    peopleAverageIncome ([] : List ℤ) < 100
    ∧ get_people_income_list (fun _ => 50) 50 200 100 1 = [150]
    ∧ ¬((150 : ℤ) ≤ truncInt (100 : ℚ)) := by
  refine ⟨by rw [peopleAverageIncome_nil]; norm_num, ?_, by rw [truncInt_100]; decide⟩
  have hd : incomeDraw (fun _ => 50) 50 200 100 [] = 150 := by
    unfold incomeDraw
    rw [if_neg (by rw [peopleAverageIncome_nil]; norm_num : ¬ peopleAverageIncome ([] : List ℤ) > 100)]
    rw [randint, truncInt_100, truncInt_200]
    decide
  show incomeListAux (fun _ => 50) 50 200 100 1 [] = [150]
  rw [incomeListAux, incomeListAux, List.nil_append, hd]

lemma incomeListAux_append (rng : ℕ → ℕ) (range_low range_high avg : ℚ) :
    ∀ (n : ℕ) (acc : List ℤ), ∃ t,
      incomeListAux rng range_low range_high avg n acc = acc ++ t
  | 0, acc => ⟨[], (List.append_nil acc).symm⟩
  | n + 1, acc => by
      obtain ⟨t, ht⟩ := incomeListAux_append rng range_low range_high avg n
        (acc ++ [incomeDraw rng range_low range_high avg acc])
      exact ⟨incomeDraw rng range_low range_high avg acc :: t, by
        rw [incomeListAux, ht, List.append_assoc]; rfl⟩

/-- C10: for every income range and positive target `average_income`, the
first income produced by the draw comes from the upper interval
`[int(average_income), int(range_high)]` — in particular it is at least the
integer part of `average_income` — because the running average starts at 0 and
the lower-interval branch requires the running average to strictly exceed the
target. -/
theorem c10_first_income_from_upper_interval (rng : ℕ → ℕ)
    (range_low range_high avg : ℚ) (n : ℕ) (hpos : 0 < avg)
    (hle : truncInt avg ≤ truncInt range_high) (hn : n ≠ 0) :
    ∃ v, (get_people_income_list rng range_low range_high avg n).head? = some v
      ∧ truncInt avg ≤ v ∧ v ≤ truncInt range_high := by
  obtain ⟨m, rfl⟩ := Nat.exists_eq_succ_of_ne_zero hn
  have hd : incomeDraw rng range_low range_high avg []
      = randint rng 0 (truncInt avg) (truncInt range_high) := by
    unfold incomeDraw
    rw [if_neg (by rw [peopleAverageIncome_nil]; exact not_lt.2 hpos.le), List.length_nil]
  obtain ⟨t, ht⟩ := incomeListAux_append rng range_low range_high avg m
    ([] ++ [incomeDraw rng range_low range_high avg []])
  refine ⟨randint rng 0 (truncInt avg) (truncInt range_high), ?_,
    randint_bounds rng 0 _ _ hle⟩
  show (incomeListAux rng range_low range_high avg (m + 1) []).head? = _
  rw [incomeListAux, ht, List.nil_append, hd]
  rfl

/-- Witness for C10: range [50, 200], target 100, four draws. -/
theorem c10_first_income_from_upper_interval_witness :
    (0 : ℚ) < 100 ∧ truncInt (100 : ℚ) ≤ truncInt (200 : ℚ) ∧ (4 : ℕ) ≠ 0
    ∧ ∃ v, (get_people_income_list (fun _ => 3) 50 200 100 4).head? = some v
        ∧ truncInt (100 : ℚ) ≤ v ∧ v ≤ truncInt (200 : ℚ) :=
  ⟨by norm_num, by rw [truncInt_100, truncInt_200]; decide, by decide,
   c10_first_income_from_upper_interval (fun _ => 3) 50 200 100 4 (by norm_num)
     (by rw [truncInt_100, truncInt_200]; decide) (by decide)⟩

/-! ## C7: the selection probabilities -/

lemma sum_map_div (l : List ℚ) (f : ℚ → ℚ) (c : ℚ) :
    (l.map fun x => f x / c).sum = (l.map f).sum / c := by
  induction l with
  | nil => simp
  | cons a t ih => simp [ih, add_div]

lemma sum_inverse_pos (l : List ℚ) (hne : l ≠ []) (hpos : ∀ x ∈ l, 0 < x) :
    0 < (l.map fun x => 1 / x).sum := by
  cases l with
  | nil => exact absurd rfl hne
  | cons a t =>
    simp only [List.map_cons, List.sum_cons]
    have ha : 0 < 1 / a := by
      have := hpos a (List.mem_cons_self a t)
      positivity
    have ht : 0 ≤ (t.map fun x => 1 / x).sum := by
      apply List.sum_nonneg
      intro x hx
      obtain ⟨y, hy, rfl⟩ := List.mem_map.1 hx
      have := hpos y (List.mem_cons_of_mem a hy)
      positivity
    linarith

lemma inverseChance_sum (l : List ℚ) (hne : l ≠ []) (hpos : ∀ x ∈ l, 0 < x) :
    (inverseChance l).sum = 1 := by
  unfold inverseChance
  rw [sum_map_div]
  exact div_self (ne_of_gt (sum_inverse_pos l hne hpos))

lemma inverseChance_length (l : List ℚ) : (inverseChance l).length = l.length := by
  simp [inverseChance]

lemma sum_range_map_add (n : ℕ) (f g : ℕ → ℚ) :
    ((List.range n).map fun i => f i + g i).sum
      = ((List.range n).map f).sum + ((List.range n).map g).sum := by
  induction n with
  | zero => simp
  | succ m ih => simp [List.range_succ, ih]; ring

lemma sum_range_map_mul (n : ℕ) (f : ℕ → ℚ) (w : ℚ) :
    ((List.range n).map fun i => f i * w).sum
      = ((List.range n).map f).sum * w := by
  induction n with
  | zero => simp
  | succ m ih => simp [List.range_succ, ih]; ring

lemma sum_range_getD : ∀ (l : List ℚ),
    ((List.range l.length).map fun i => l.getD i 0).sum = l.sum
  | [] => by simp
  | a :: t => by
      rw [List.length_cons, List.range_succ_eq_map]
      simp only [List.map_cons, List.map_map, List.sum_cons, List.getD_cons_zero,
        Function.comp_def, List.getD_cons_succ]
      rw [sum_range_getD t]

lemma sum_range_getD_of_length (n : ℕ) (l : List ℚ) (h : l.length = n) :
    ((List.range n).map fun i => l.getD i 0).sum = l.sum := by
  subst h
  exact sum_range_getD l

/-- C7 (amended): for every non-empty candidate set whose distance, time and
rent values are all strictly positive (length-matched across the three
columns), the selection probabilities with weights 0.4/0.4/0.2 sum to exactly
1. -/
theorem c7_probabilities_sum_to_one (ds ts rs : List ℚ)
    (hlt : ts.length = ds.length) (hlr : rs.length = ds.length) (hne : ds ≠ [])
    (hd : ∀ x ∈ ds, 0 < x) (ht : ∀ x ∈ ts, 0 < x) (hr : ∀ x ∈ rs, 0 < x) :
    (probability_normalize ds ts rs (2/5) (2/5) (1/5)).sum = 1 := by
  have htne : ts ≠ [] := by
    intro h
    rw [h] at hlt
    exact hne (List.eq_nil_of_length_eq_zero hlt.symm)
  have hrne : rs ≠ [] := by
    intro h
    rw [h] at hlr
    exact hne (List.eq_nil_of_length_eq_zero hlr.symm)
  unfold probability_normalize
  rw [sum_range_map_add (inverseChance ds).length
    (fun i => (inverseChance ds).getD i 0 * (2/5)
      + (inverseChance ts).getD i 0 * (2/5))
    (fun i => (inverseChance rs).getD i 0 * (1/5))]
  rw [sum_range_map_add (inverseChance ds).length
    (fun i => (inverseChance ds).getD i 0 * (2/5))
    (fun i => (inverseChance ts).getD i 0 * (2/5))]
  rw [sum_range_map_mul (inverseChance ds).length
    (fun i => (inverseChance ds).getD i 0) (2/5)]
  rw [sum_range_map_mul (inverseChance ds).length
    (fun i => (inverseChance ts).getD i 0) (2/5)]
  rw [sum_range_map_mul (inverseChance ds).length
    (fun i => (inverseChance rs).getD i 0) (1/5)]
  rw [sum_range_getD_of_length (inverseChance ds).length (inverseChance ds) rfl]
  rw [sum_range_getD_of_length (inverseChance ds).length (inverseChance ts)
    (by rw [inverseChance_length ts, inverseChance_length ds, hlt])]
  rw [sum_range_getD_of_length (inverseChance ds).length (inverseChance rs)
    (by rw [inverseChance_length rs, inverseChance_length ds, hlr])]
  rw [inverseChance_sum ds hne hd, inverseChance_sum ts htne ht,
    inverseChance_sum rs hrne hr]
  norm_num

/-- Witness for C7's amended statement: two candidate listings with positive
distances, times and rents. -/
theorem c7_probabilities_sum_to_one_witness :
    ([(3 : ℚ), 6].length = [(1 : ℚ), 2].length)
    ∧ ([(4 : ℚ), 8].length = [(1 : ℚ), 2].length)
    ∧ [(1 : ℚ), 2] ≠ []
    ∧ (∀ x ∈ [(1 : ℚ), 2], 0 < x) ∧ (∀ x ∈ [(3 : ℚ), 6], 0 < x)
    ∧ (∀ x ∈ [(4 : ℚ), 8], 0 < x)
    ∧ (probability_normalize [1, 2] [3, 6] [4, 8] (2/5) (2/5) (1/5)).sum = 1 :=
  ⟨rfl, rfl, by simp,
   by intro x hx; fin_cases hx <;> norm_num,
   by intro x hx; fin_cases hx <;> norm_num,
   by intro x hx; fin_cases hx <;> norm_num,
   c7_probabilities_sum_to_one [1, 2] [3, 6] [4, 8] rfl rfl (by simp)
     (by intro x hx; fin_cases hx <;> norm_num)
     (by intro x hx; fin_cases hx <;> norm_num)
     (by intro x hx; fin_cases hx <;> norm_num)⟩

/-- C7 counterexample: the candidate values `[1, −1]` are all non-zero, yet
the inverse-sum normalizer is `1/1 + 1/(−1) = 0`, so the probabilities do not
sum to 1 (in this total-division model every chance collapses to 0 and the sum
is 0; under Python semantics the same input raises `ZeroDivisionError`).  The
claim's hypothesis "all non-zero" is too weak; positivity is required. -/
theorem c7_counterexample :
    ((1 : ℚ) ≠ 0 ∧ (-1 : ℚ) ≠ 0)
    ∧ (probability_normalize [1, -1] [1, -1] [1, -1] (2/5) (2/5) (1/5)).sum
        ≠ 1 := by
  constructor
  · norm_num
  · norm_num [probability_normalize, inverseChance, List.range_succ]

/-! ## C8: termination of the housing-search widening loop -/

lemma mem_get_housing_group (df : List Listing) (a b : ℚ) (l : Listing) :
    l ∈ get_housing_group df (a, b)
      ↔ l ∈ df ∧ l.individual_rent_price < b / 12
          ∧ a / 12 < l.individual_rent_price := by
  simp [get_housing_group, List.mem_filter, and_assoc]

lemma widening_eventually_nonempty (df : List Listing) (income lo0 hi0 : ℚ)
    (hdf : df ≠ []) (hinc : 0 < income) :
    ∃ k : ℕ, get_housing_group df
      (income * (lo0 - (k : ℚ) * (1/20)), income * (hi0 + (k : ℚ) * (1/20)))
        ≠ [] := by
  obtain ⟨l0, hl0⟩ := List.exists_mem_of_ne_nil df hdf
  set q : ℚ := 12 * l0.individual_rent_price / income with hq
  have hq1 : q * income = 12 * l0.individual_rent_price :=
    div_mul_cancel₀ _ (ne_of_gt hinc)
  obtain ⟨k, hk⟩ := exists_nat_gt (20 * max (lo0 - q) (q - hi0))
  have h_up : q < hi0 + (k : ℚ) * (1/20) := by
    have h1 : 20 * (q - hi0) ≤ 20 * max (lo0 - q) (q - hi0) :=
      mul_le_mul_of_nonneg_left (le_max_right _ _) (by norm_num)
    linarith
  have h_lo : lo0 - (k : ℚ) * (1/20) < q := by
    have h1 : 20 * (lo0 - q) ≤ 20 * max (lo0 - q) (q - hi0) :=
      mul_le_mul_of_nonneg_left (le_max_left _ _) (by norm_num)
    linarith
  refine ⟨k, List.ne_nil_of_mem ((mem_get_housing_group df _ _ l0).2
    ⟨hl0, ?_, ?_⟩)⟩
  · rw [lt_div_iff₀ (by norm_num : (0 : ℚ) < 12)]
    have h2 : q * income < (hi0 + (k : ℚ) * (1/20)) * income :=
      mul_lt_mul_of_pos_right h_up hinc
    rw [hq1] at h2
    linarith
  · rw [div_lt_iff₀ (by norm_num : (0 : ℚ) < 12)]
    have h2 : (lo0 - (k : ℚ) * (1/20)) * income < q * income :=
      mul_lt_mul_of_pos_right h_lo hinc
    rw [hq1] at h2
    linarith

lemma widenSearch_reaches (df : List Listing) (income : ℚ) :
    ∀ (k : ℕ) (lo hi : ℚ),
      get_housing_group df
          (income * (lo - (k : ℚ) * (1/20)), income * (hi + (k : ℚ) * (1/20)))
        ≠ [] →
      ∃ (fuel : ℕ) (lo2 hi2 : ℚ),
        widenSearch df income fuel (lo, hi)
            = some ((lo2, hi2), get_housing_group df (income * lo2, income * hi2))
          ∧ get_housing_group df (income * lo2, income * hi2) ≠ []
  | 0, lo, hi, h => by
      have h0 : get_housing_group df (income * lo, income * hi) ≠ [] := by
        simpa using h
      refine ⟨1, lo, hi, ?_, h0⟩
      simp only [widenSearch]
      rw [if_neg h0]
  | k + 1, lo, hi, h => by
      by_cases h0 : get_housing_group df (income * lo, income * hi) = []
      · have h1 : get_housing_group df
            (income * ((lo - 1/20) - (k : ℚ) * (1/20)),
             income * ((hi + 1/20) + (k : ℚ) * (1/20))) ≠ [] := by
          rw [show (lo - 1/20) - (k : ℚ) * (1/20) = lo - ((k + 1 : ℕ) : ℚ) * (1/20)
                from by push_cast; ring,
              show (hi + 1/20) + (k : ℚ) * (1/20) = hi + ((k + 1 : ℕ) : ℚ) * (1/20)
                from by push_cast; ring]
          exact h
        obtain ⟨fuel, lo2, hi2, heq, hne⟩ :=
          widenSearch_reaches df income k (lo - 1/20) (hi + 1/20) h1
        refine ⟨fuel + 1, lo2, hi2, ?_, hne⟩
        simp only [widenSearch]
        rw [if_pos h0]
        exact heq
      · refine ⟨1, lo, hi, ?_, h0⟩
        simp only [widenSearch]
        rw [if_neg h0]

/-- C8: for every non-empty listing table and every positive income, the
widening loop — lowering the lower ratio bound and raising the upper ratio
bound by 0.05 per retry — terminates with enough fuel: it returns a non-empty
candidate set, every listing of which has its monthly rent strictly inside the
final widened range. -/
theorem c8_widening_terminates (df : List Listing) (income lo0 hi0 : ℚ)
    (hdf : df ≠ []) (hinc : 0 < income) :
    ∃ (fuel : ℕ) (lo hi : ℚ) (g : List Listing),
      widenSearch df income fuel (lo0, hi0) = some ((lo, hi), g)
      ∧ g ≠ []
      ∧ ∀ l ∈ g, income * lo / 12 < l.individual_rent_price
          ∧ l.individual_rent_price < income * hi / 12 := by
  obtain ⟨k, hk⟩ := widening_eventually_nonempty df income lo0 hi0 hdf hinc
  obtain ⟨fuel, lo2, hi2, heq, hne⟩ := widenSearch_reaches df income k lo0 hi0 hk
  refine ⟨fuel, lo2, hi2, _, heq, hne, ?_⟩
  intro l hl
  have hmem := (mem_get_housing_group df _ _ l).1 hl
  exact ⟨hmem.2.2, hmem.2.1⟩

/-- Witness for C8: a one-listing table (monthly rent 100), income 1200 and
initial ratio window [0, 1]. -/
theorem c8_widening_terminates_witness :
    [sampleListing] ≠ [] ∧ (0 : ℚ) < 1200
    ∧ ∃ (fuel : ℕ) (lo hi : ℚ) (g : List Listing),
        widenSearch [sampleListing] 1200 fuel (0, 1) = some ((lo, hi), g)
        ∧ g ≠ []
        ∧ ∀ l ∈ g, 1200 * lo / 12 < l.individual_rent_price
            ∧ l.individual_rent_price < 1200 * hi / 12 :=
  ⟨by simp, by norm_num,
   c8_widening_terminates [sampleListing] 1200 0 1 (by simp) (by norm_num)⟩

end Commuting
